import Mathlib

/-! Shallow embedding of the Keyword service layer of the Ppcsim repository.

The backend service (KeywordService) is embedded as pure functions over an
explicit Store value: every operation takes the store and returns the result
together with the possibly updated store, so a thrown error corresponds to an
unchanged store.  Monetary and decimal fields are embedded as rationals.
JavaScript truthiness tests in the source are translated faithfully, in
particular the test on an optional numeric adGroupId, which is false for 0.
-/

namespace Ppcsim

/-- Match types of a keyword, from the string union in the source. -/
inductive MatchType
  | BROAD
  | PHRASE
  | EXACT
deriving DecidableEq

/-- Lifecycle states shared by the entities, from the string union in the source. -/
inductive EntityStatus
  | ACTIVE
  | PAUSED
  | ARCHIVED
deriving DecidableEq

/-- Campaign record: the keyword service only reads its id for existence checks. -/
structure Campaign where
  id : Nat
deriving DecidableEq

/-- AdGroup record: the keyword service reads its id and its owning campaign. -/
structure AdGroup where
  id : Nat
  campaignId : Nat
deriving DecidableEq

/-- Keyword record as stored, with the metric counters used by getKeywordStats.
Timestamps maintained by the storage layer are not part of the service logic
and are omitted. -/
structure Keyword where
  id : Nat
  campaignId : Nat
  adGroupId : Option Nat
  keywordText : String
  matchType : MatchType
  bid : Rat
  isNegative : Bool
  status : EntityStatus
  impressions : Nat
  clicks : Nat
  conversions : Nat
  spend : Rat
  sales : Rat
deriving DecidableEq

/-- Input of createKeyword (CreateKeywordDto in the source); optional fields
of the TypeScript interface become Option. -/
structure CreateKeywordDto where
  campaignId : Nat
  adGroupId : Option Nat
  keywordText : String
  matchType : MatchType
  bid : Rat
  isNegative : Option Bool
deriving DecidableEq

/-- Patch accepted by updateKeyword (UpdateKeywordDto in the source); every
field is optional. -/
structure UpdateKeywordDto where
  keywordText : Option String
  matchType : Option MatchType
  bid : Option Rat
  status : Option EntityStatus
  isNegative : Option Bool
deriving DecidableEq

/-- The two error kinds thrown by the keyword service. -/
inductive ServiceError
  | validationError (msg : String)
  | notFoundError (msg : String)
deriving DecidableEq

/-- The persistent store reachable through the ORM, as a value: the three
entity tables plus the autoincrement counter for keyword ids. -/
structure Store where
  campaigns : List Campaign
  adGroups : List AdGroup
  keywords : List Keyword
  nextKeywordId : Nat
deriving DecidableEq

/-- Embedding of the JavaScript string trim used by the source: leading and
trailing whitespace characters are removed. -/
def jsTrim (s : String) : String :=
  String.mk (((s.data.dropWhile Char.isWhitespace).reverse.dropWhile
    Char.isWhitespace).reverse)

def bidMsg : String := "Bid must be greater than 0"

def textMsg : String := "Keyword text cannot be empty"

def campaignNotFoundMsg : String := "Campaign not found"

def adGroupNotFoundMsg : String := "Ad group not found"

def adGroupOwnershipMsg : String := "Ad group does not belong to the specified campaign"

def keywordNotFoundMsg : String := "Keyword not found"

/-- The row inserted by createKeyword.  The explicit fields mirror the data
object passed to the insert in the source; the remaining fields are
modelled from the spec: the storage schema (not part of the service source)
defaults status to ACTIVE and every metric counter to 0 for a new keyword. -/
def newKeyword (data : CreateKeywordDto) (s : Store) : Keyword :=
  { id := s.nextKeywordId
    campaignId := data.campaignId
    adGroupId := data.adGroupId
    keywordText := jsTrim data.keywordText
    matchType := data.matchType
    bid := data.bid
    isNegative := data.isNegative.getD false
    status := EntityStatus.ACTIVE
    impressions := 0
    clicks := 0
    conversions := 0
    spend := 0
    sales := 0 }

/-- Persisting the new keyword row and advancing the autoincrement counter. -/
def insertKeyword (data : CreateKeywordDto) (s : Store) :
    Except ServiceError Keyword × Store :=
  (Except.ok (newKeyword data s),
   { s with
     keywords := s.keywords ++ [newKeyword data s]
     nextKeywordId := s.nextKeywordId + 1 })

/-- createKeyword from the source: bid check (skipped for negative keywords),
keyword text check, campaign existence, then the optional ad-group checks.
The source guards the ad-group block with a truthiness test on the numeric
adGroupId, so an adGroupId equal to 0 skips the block entirely. -/
def createKeyword (data : CreateKeywordDto) (s : Store) :
    Except ServiceError Keyword × Store :=
  if !(data.isNegative.getD false) && decide (data.bid ≤ 0) then
    (Except.error (ServiceError.validationError bidMsg), s)
  else if jsTrim data.keywordText = "" then
    (Except.error (ServiceError.validationError textMsg), s)
  else
    match s.campaigns.find? (fun c => c.id == data.campaignId) with
    | none => (Except.error (ServiceError.notFoundError campaignNotFoundMsg), s)
    | some _ =>
      match data.adGroupId with
      | none => insertKeyword data s
      | some agId =>
        if agId == 0 then
          insertKeyword data s
        else
          match s.adGroups.find? (fun a => a.id == agId) with
          | none => (Except.error (ServiceError.notFoundError adGroupNotFoundMsg), s)
          | some adGroup =>
            if adGroup.campaignId == data.campaignId then
              insertKeyword data s
            else
              (Except.error (ServiceError.validationError adGroupOwnershipMsg), s)

/-- The lookup predicate of getKeywordById: the row must match both the id
and the campaignId. -/
def keywordScopePred (id campaignId : Nat) (k : Keyword) : Bool :=
  k.id == id && k.campaignId == campaignId

/-- getKeywordById from the source: first row matching both the id and the
campaignId, a NotFoundError otherwise. -/
def getKeywordById (id campaignId : Nat) (s : Store) : Except ServiceError Keyword :=
  match s.keywords.find? (keywordScopePred id campaignId) with
  | none => Except.error (ServiceError.notFoundError keywordNotFoundMsg)
  | some k => Except.ok k

/-- The conditional-spread update object of updateKeyword: each field is
applied only when present, and keywordText additionally only when truthy
(a non-empty string), exactly as the source spreads. -/
def applyPatch (k : Keyword) (d : UpdateKeywordDto) : Keyword :=
  { k with
    keywordText :=
      match d.keywordText with
      | some t => if t = "" then k.keywordText else jsTrim t
      | none => k.keywordText
    matchType := d.matchType.getD k.matchType
    bid := d.bid.getD k.bid
    status := d.status.getD k.status
    isNegative := d.isNegative.getD k.isNegative }

/-- The row-level effect of the update statement issued by updateKeyword: the
row with the given id receives the patch, every other row is unchanged. -/
def patchKeywordRow (id : Nat) (d : UpdateKeywordDto) (k : Keyword) : Keyword :=
  if k.id == id then applyPatch k d else k

/-- The row-level effect of the archiving update issued by deleteKeyword. -/
def archiveKeywordRow (id : Nat) (k : Keyword) : Keyword :=
  if k.id == id then { k with status := EntityStatus.ARCHIVED } else k

/-- updateKeyword from the source: scoped fetch, bid validated against the
resulting isNegative value when bid is in the patch, keyword text validated
when present, then a partial update of the row with the given id. -/
def updateKeyword (id campaignId : Nat) (d : UpdateKeywordDto) (s : Store) :
    Except ServiceError Keyword × Store :=
  match getKeywordById id campaignId s with
  | Except.error e => (Except.error e, s)
  | Except.ok existingKeyword =>
    let willBeNegative := d.isNegative.getD existingKeyword.isNegative
    let bidInvalid :=
      match d.bid with
      | some b => !willBeNegative && decide (b ≤ 0)
      | none => false
    if bidInvalid then
      (Except.error (ServiceError.validationError bidMsg), s)
    else
      let textInvalid :=
        match d.keywordText with
        | some t => jsTrim t == ""
        | none => false
      if textInvalid then
        (Except.error (ServiceError.validationError textMsg), s)
      else
        (Except.ok (applyPatch existingKeyword d),
         { s with keywords := s.keywords.map (patchKeywordRow id d) })

/-- deleteKeyword from the source: scoped fetch, then a soft delete setting
the status of the row with the given id to ARCHIVED. -/
def deleteKeyword (id campaignId : Nat) (s : Store) :
    Except ServiceError Unit × Store :=
  match getKeywordById id campaignId s with
  | Except.error e => (Except.error e, s)
  | Except.ok _ =>
    (Except.ok (),
     { s with keywords := s.keywords.map (archiveKeywordRow id) })

/-- bulkCreateKeywords from the source: one createKeyword per entry, each its
own atomic unit.  The Promise.all of the source is embedded as left-to-right
sequential execution; a failing entry stops the run without undoing the
rows already inserted. -/
def bulkCreateKeywords (entries : List CreateKeywordDto) (s : Store) :
    Except ServiceError (List Keyword) × Store :=
  match entries with
  | [] => (Except.ok [], s)
  | d :: rest =>
    match createKeyword d s with
    | (Except.error e, s1) => (Except.error e, s1)
    | (Except.ok k, s1) =>
      match bulkCreateKeywords rest s1 with
      | (Except.error e, s2) => (Except.error e, s2)
      | (Except.ok ks, s2) => (Except.ok (k :: ks), s2)

/-- Optional filters of getCampaignKeywords. -/
structure KeywordFilters where
  adGroupId : Option Nat
  matchType : Option MatchType
  status : Option EntityStatus
  isNegative : Option Bool
deriving DecidableEq

/-- getCampaignKeywords from the source: all keywords of the campaign, each
optional filter narrowing the result when present.  The adGroupId filter is
guarded by a truthiness test in the source, so a filter value of 0 is
ignored; isNegative is compared against undefined and so applies even when
false.  The creation-time ordering of the source is not modelled; the
result keeps store order. -/
def getCampaignKeywords (campaignId : Nat) (f : KeywordFilters) (s : Store) :
    List Keyword :=
  s.keywords.filter (fun k =>
    k.campaignId == campaignId
    && (match f.adGroupId with
        | some a => a == 0 || k.adGroupId == some a
        | none => true)
    && (match f.matchType with
        | some m => k.matchType == m
        | none => true)
    && (match f.status with
        | some st => k.status == st
        | none => true)
    && (match f.isNegative with
        | some b => k.isNegative == b
        | none => true))

/-- A counters snapshot as consumed by the metrics projection. -/
structure CountersSnapshot where
  impressions : Nat
  clicks : Nat
  conversions : Nat
  spend : Rat
  sales : Rat
deriving DecidableEq

/-- The four derived ratios returned by getKeywordStats, as decimal strings.
The fields of the source response that merely echo the stored counters are
not modelled. -/
structure KeywordStats where
  ctr : String
  cvr : String
  cpc : String
  acos : String
deriving DecidableEq

/-- Rendering a rational to a decimal string with two fractional digits, the
embedding of the toFixed call of the source: the value is scaled by 100 and
rounded to the nearest integer, ties toward positive infinity. -/
def toFixed2Int (n : Int) : String :=
  (if n < 0 then "-" else "")
    ++ toString (n.natAbs / 100)
    ++ "."
    ++ (if n.natAbs % 100 < 10 then "0" ++ toString (n.natAbs % 100)
        else toString (n.natAbs % 100))

def toFixed2 (q : Rat) : String :=
  toFixed2Int ⌊q * 100 + 1 / 2⌋

/-- The metrics projection of getKeywordStats: each ratio is computed only
when its denominator is positive and rendered with two decimals, otherwise
the literal default is returned. -/
def metricsProjection (c : CountersSnapshot) : KeywordStats :=
  { ctr :=
      if 0 < c.impressions then
        toFixed2 ((c.clicks : Rat) / (c.impressions : Rat) * 100)
      else "0.00"
    cvr :=
      if 0 < c.clicks then
        toFixed2 ((c.conversions : Rat) / (c.clicks : Rat) * 100)
      else "0.00"
    cpc :=
      if 0 < c.clicks then
        toFixed2 (c.spend / (c.clicks : Rat))
      else "0.00"
    acos :=
      if 0 < c.sales then
        toFixed2 (c.spend / c.sales * 100)
      else "0.00" }

/-- The counters snapshot stored on a keyword row. -/
def Keyword.counters (k : Keyword) : CountersSnapshot :=
  { impressions := k.impressions
    clicks := k.clicks
    conversions := k.conversions
    spend := k.spend
    sales := k.sales }

/-- getKeywordStats from the source: scoped fetch, then the pure projection
over the stored counters. -/
def getKeywordStats (id campaignId : Nat) (s : Store) :
    Except ServiceError KeywordStats :=
  (getKeywordById id campaignId s).map (fun k => metricsProjection k.counters)

/-- The fulfilled deleteKeyword reducer of the frontend keyword slice: the
keyword list is filtered, dropping every keyword whose id equals the action
payload. -/
def deleteKeywordFulfilled (keywords : List Keyword) (id : Nat) : List Keyword :=
  keywords.filter (fun k => !(k.id == id))

/-! Inversion lemmas about the operations, shared by the claim theorems. -/

/-- A createKeyword call that throws leaves the store untouched. -/
theorem createKeyword_error_state (data : CreateKeywordDto) (s : Store)
    (e : ServiceError) (s2 : Store)
    (h : createKeyword data s = (Except.error e, s2)) : s2 = s := by
  unfold createKeyword at h
  split at h
  · exact (Prod.mk.injEq _ _ _ _ ▸ h).2.symm
  · split at h
    · exact (Prod.mk.injEq _ _ _ _ ▸ h).2.symm
    · split at h
      · exact (Prod.mk.injEq _ _ _ _ ▸ h).2.symm
      · split at h
        · simp [insertKeyword] at h
        · split at h
          · simp [insertKeyword] at h
          · split at h
            · exact (Prod.mk.injEq _ _ _ _ ▸ h).2.symm
            · split at h
              · simp [insertKeyword] at h
              · exact (Prod.mk.injEq _ _ _ _ ▸ h).2.symm

/-- A successful createKeyword call returns exactly the new row and appends it
to the keyword table. -/
theorem createKeyword_ok_state (data : CreateKeywordDto) (s : Store)
    (k : Keyword) (s2 : Store)
    (h : createKeyword data s = (Except.ok k, s2)) :
    k = newKeyword data s ∧
    s2 = { s with
           keywords := s.keywords ++ [newKeyword data s]
           nextKeywordId := s.nextKeywordId + 1 } := by
  unfold createKeyword at h
  split at h
  · simp at h
  · split at h
    · simp at h
    · split at h
      · simp at h
      · split at h
        · simp only [insertKeyword, Prod.mk.injEq, Except.ok.injEq] at h
          exact ⟨h.1.symm, h.2.symm⟩
        · split at h
          · simp only [insertKeyword, Prod.mk.injEq, Except.ok.injEq] at h
            exact ⟨h.1.symm, h.2.symm⟩
          · split at h
            · simp at h
            · split at h
              · simp only [insertKeyword, Prod.mk.injEq, Except.ok.injEq] at h
                exact ⟨h.1.symm, h.2.symm⟩
              · simp at h

/-- A successful createKeyword call passed the bid validation: either the
keyword is negative or its bid is positive. -/
theorem createKeyword_ok_bid (data : CreateKeywordDto) (s : Store)
    (k : Keyword) (s2 : Store)
    (h : createKeyword data s = (Except.ok k, s2)) :
    data.isNegative.getD false = true ∨ 0 < data.bid := by
  unfold createKeyword at h
  split at h
  · simp at h
  · rename_i hcond
    by_cases hn : data.isNegative.getD false = true
    · exact Or.inl hn
    · refine Or.inr (lt_of_not_le fun hle => hcond ?_)
      have hn2 : data.isNegative.getD false = false := Bool.eq_false_iff.mpr hn
      simp [hn2, hle]

/-- C8: for every counters snapshot the metrics projection returns ctr, cvr,
cpc and acos computed by the guarded division formulas, rendered with two
decimals and defaulting to the literal zero string when the denominator is
not positive, and the projection is a total function (it never raises); on
the snapshot with 1000 impressions, 50 clicks, 5 conversions, spend 25 and
sales 100 it yields 5.00, 10.00, 0.50 and 25.00, and on the all-zero
snapshot it yields 0.00 for all four ratios. -/
theorem metricsProjection_claim (c : CountersSnapshot) :
    ((metricsProjection c).ctr =
      if 0 < c.impressions then
        toFixed2 ((c.clicks : Rat) / (c.impressions : Rat) * 100)
      else "0.00") ∧
    ((metricsProjection c).cvr =
      if 0 < c.clicks then
        toFixed2 ((c.conversions : Rat) / (c.clicks : Rat) * 100)
      else "0.00") ∧
    ((metricsProjection c).cpc =
      if 0 < c.clicks then toFixed2 (c.spend / (c.clicks : Rat)) else "0.00") ∧
    ((metricsProjection c).acos =
      if 0 < c.sales then toFixed2 (c.spend / c.sales * 100) else "0.00") ∧
    metricsProjection ⟨1000, 50, 5, 25, 100⟩ = ⟨"5.00", "10.00", "0.50", "25.00"⟩ ∧
    metricsProjection ⟨0, 0, 0, 0, 0⟩ = ⟨"0.00", "0.00", "0.00", "0.00"⟩ := by
  refine ⟨rfl, rfl, rfl, rfl, ?_, rfl⟩
  unfold metricsProjection
  have h1 : ⌊(((50 : Nat) : Rat) / ((1000 : Nat) : Rat) * 100) * 100 + 1 / 2⌋ = 500 := by
    norm_num
  have h2 : ⌊(((5 : Nat) : Rat) / ((50 : Nat) : Rat) * 100) * 100 + 1 / 2⌋ = 1000 := by
    norm_num
  have h3 : ⌊((25 : Rat) / ((50 : Nat) : Rat)) * 100 + 1 / 2⌋ = 50 := by norm_num
  have h4 : ⌊((25 : Rat) / (100 : Rat) * 100) * 100 + 1 / 2⌋ = 2500 := by norm_num
  simp only [toFixed2]
  norm_num [h1, h2, h3, h4]
  refine ⟨by decide, by decide, by decide, by decide⟩

/-- C1: with a resulting isNegative of false, createKeyword rejects any bid
at most 0 with the bid ValidationError and an unchanged store, and with a
positive bid (and non-empty trimmed text, an existing campaign, and a
satisfied ad-group precondition) it succeeds, appending and returning the
new keyword with status ACTIVE, all counters zero, and trimmed text. -/
theorem createKeyword_bid_rule (data : CreateKeywordDto) (s : Store)
    (hneg : data.isNegative.getD false = false) :
    (data.bid ≤ 0 →
      createKeyword data s = (Except.error (ServiceError.validationError bidMsg), s)) ∧
    (0 < data.bid →
      jsTrim data.keywordText ≠ "" →
      (∃ c ∈ s.campaigns, c.id = data.campaignId) →
      (∀ g, data.adGroupId = some g → g ≠ 0 →
        ∃ ag, s.adGroups.find? (fun a => a.id == g) = some ag ∧
          ag.campaignId = data.campaignId) →
      createKeyword data s =
        (Except.ok (newKeyword data s),
         { s with
           keywords := s.keywords ++ [newKeyword data s]
           nextKeywordId := s.nextKeywordId + 1 }) ∧
      (newKeyword data s).status = EntityStatus.ACTIVE ∧
      (newKeyword data s).keywordText = jsTrim data.keywordText ∧
      (newKeyword data s).impressions = 0 ∧
      (newKeyword data s).clicks = 0 ∧
      (newKeyword data s).conversions = 0 ∧
      (newKeyword data s).spend = 0 ∧
      (newKeyword data s).sales = 0) := by
  constructor
  · intro hbid
    have hb : (!(data.isNegative.getD false) && decide (data.bid ≤ 0)) = true := by
      simp [hneg, hbid]
    unfold createKeyword
    simp [hb]
  · intro hbid htext hcamp hag
    have hb : (!(data.isNegative.getD false) && decide (data.bid ≤ 0)) = false := by
      simp [hneg, not_le.mpr hbid]
    have hfind : (s.campaigns.find? (fun c => c.id == data.campaignId)).isSome = true := by
      rw [List.find?_isSome]
      obtain ⟨c, hc, he⟩ := hcamp
      exact ⟨c, hc, by simp [he]⟩
    obtain ⟨c0, hc0⟩ := Option.isSome_iff_exists.mp hfind
    refine ⟨?_, rfl, rfl, rfl, rfl, rfl, rfl, rfl⟩
    unfold createKeyword
    rw [hb]
    simp only [Bool.false_eq_true, if_false, if_neg htext, hc0]
    cases hAd : data.adGroupId with
    | none => rfl
    | some g =>
      by_cases hz : g = 0
      · subst hz
        simp [insertKeyword]
      · obtain ⟨ag, hfind2, hown⟩ := hag g hAd hz
        have hzb : (g == 0) = false := by simp [hz]
        simp only [hzb, Bool.false_eq_true, if_false, hfind2]
        simp [hown, insertKeyword]

/-- Witness for C1: the bid rule applied to concrete calls, a rejected
zero-bid creation and a successful creation with bid 5. -/
theorem createKeyword_bid_rule_witness :
    createKeyword ⟨1, none, " lamp ", MatchType.EXACT, 0, none⟩ ⟨[⟨1⟩], [], [], 1⟩
      = (Except.error (ServiceError.validationError bidMsg), ⟨[⟨1⟩], [], [], 1⟩) ∧
    createKeyword ⟨1, none, " lamp ", MatchType.EXACT, 5, none⟩ ⟨[⟨1⟩], [], [], 1⟩
      = (Except.ok (newKeyword ⟨1, none, " lamp ", MatchType.EXACT, 5, none⟩ ⟨[⟨1⟩], [], [], 1⟩),
         ⟨[⟨1⟩], [], [newKeyword ⟨1, none, " lamp ", MatchType.EXACT, 5, none⟩ ⟨[⟨1⟩], [], [], 1⟩], 2⟩) ∧
    (newKeyword ⟨1, none, " lamp ", MatchType.EXACT, 5, none⟩ ⟨[⟨1⟩], [], [], 1⟩).status
      = EntityStatus.ACTIVE :=
  ⟨(createKeyword_bid_rule ⟨1, none, " lamp ", MatchType.EXACT, 0, none⟩
      ⟨[⟨1⟩], [], [], 1⟩ rfl).1 (by decide),
   ((createKeyword_bid_rule ⟨1, none, " lamp ", MatchType.EXACT, 5, none⟩
      ⟨[⟨1⟩], [], [], 1⟩ rfl).2 (by decide) (by decide)
      ⟨⟨1⟩, by simp, rfl⟩ (fun g hg => nomatch hg)).1,
   ((createKeyword_bid_rule ⟨1, none, " lamp ", MatchType.EXACT, 5, none⟩
      ⟨[⟨1⟩], [], [], 1⟩ rfl).2 (by decide) (by decide)
      ⟨⟨1⟩, by simp, rfl⟩ (fun g hg => nomatch hg)).2.1⟩

/-- C7: when a keyword id exists in the store only under a different
campaign, the scoped lookup and therefore updateKeyword and deleteKeyword
all fail with the keyword NotFoundError, and the store is unchanged. -/
theorem campaignId_scoping_claim (id cid : Nat) (d : UpdateKeywordDto) (s : Store)
    (_hexists : ∃ k ∈ s.keywords, k.id = id)
    (hdiff : ∀ k ∈ s.keywords, k.id = id → k.campaignId ≠ cid) :
    getKeywordById id cid s = Except.error (ServiceError.notFoundError keywordNotFoundMsg) ∧
    updateKeyword id cid d s
      = (Except.error (ServiceError.notFoundError keywordNotFoundMsg), s) ∧
    deleteKeyword id cid s
      = (Except.error (ServiceError.notFoundError keywordNotFoundMsg), s) := by
  have hnone : s.keywords.find? (keywordScopePred id cid) = none := by
    rw [List.find?_eq_none]
    intro k hk hp
    simp only [keywordScopePred, Bool.and_eq_true, beq_iff_eq] at hp
    exact hdiff k hk hp.1 hp.2
  have hget : getKeywordById id cid s
      = Except.error (ServiceError.notFoundError keywordNotFoundMsg) := by
    unfold getKeywordById
    rw [hnone]
  refine ⟨hget, ?_, ?_⟩
  · unfold updateKeyword
    rw [hget]
  · unfold deleteKeyword
    rw [hget]

/-- Witness for C7: keyword 1 lives under campaign 1, all three operations
scoped to campaign 2 fail with the keyword NotFoundError. -/
theorem campaignId_scoping_claim_witness :
    getKeywordById 1 2
        ⟨[⟨1⟩, ⟨2⟩], [], [⟨1, 1, none, "lamp", MatchType.EXACT, 1, false,
          EntityStatus.ACTIVE, 0, 0, 0, 0, 0⟩], 2⟩
      = Except.error (ServiceError.notFoundError keywordNotFoundMsg) ∧
    updateKeyword 1 2 ⟨none, none, none, none, none⟩
        ⟨[⟨1⟩, ⟨2⟩], [], [⟨1, 1, none, "lamp", MatchType.EXACT, 1, false,
          EntityStatus.ACTIVE, 0, 0, 0, 0, 0⟩], 2⟩
      = (Except.error (ServiceError.notFoundError keywordNotFoundMsg),
         ⟨[⟨1⟩, ⟨2⟩], [], [⟨1, 1, none, "lamp", MatchType.EXACT, 1, false,
           EntityStatus.ACTIVE, 0, 0, 0, 0, 0⟩], 2⟩) ∧
    deleteKeyword 1 2
        ⟨[⟨1⟩, ⟨2⟩], [], [⟨1, 1, none, "lamp", MatchType.EXACT, 1, false,
          EntityStatus.ACTIVE, 0, 0, 0, 0, 0⟩], 2⟩
      = (Except.error (ServiceError.notFoundError keywordNotFoundMsg),
         ⟨[⟨1⟩, ⟨2⟩], [], [⟨1, 1, none, "lamp", MatchType.EXACT, 1, false,
           EntityStatus.ACTIVE, 0, 0, 0, 0, 0⟩], 2⟩) :=
  campaignId_scoping_claim 1 2 ⟨none, none, none, none, none⟩
    ⟨[⟨1⟩, ⟨2⟩], [], [⟨1, 1, none, "lamp", MatchType.EXACT, 1, false,
      EntityStatus.ACTIVE, 0, 0, 0, 0, 0⟩], 2⟩
    (by decide) (by decide)

/-- Archiving a row does not change the fields the scoped lookup reads. -/
theorem keywordScopePred_archive (id cid : Nat) (k : Keyword) :
    keywordScopePred id cid (archiveKeywordRow id k) = keywordScopePred id cid k := by
  unfold archiveKeywordRow
  split <;> rfl

/-- Archiving the same row twice equals archiving it once. -/
theorem archiveKeywordRow_idem (id : Nat) (k : Keyword) :
    archiveKeywordRow id (archiveKeywordRow id k) = archiveKeywordRow id k := by
  by_cases h : (k.id == id) = true
  · simp [archiveKeywordRow, h]
  · simp [archiveKeywordRow, h]

/-- Field-by-field effect of archiving a row: only the status can change. -/
theorem archiveKeywordRow_fields (id : Nat) (k : Keyword) :
    (archiveKeywordRow id k).id = k.id ∧
    (archiveKeywordRow id k).campaignId = k.campaignId ∧
    (archiveKeywordRow id k).adGroupId = k.adGroupId ∧
    (archiveKeywordRow id k).keywordText = k.keywordText ∧
    (archiveKeywordRow id k).matchType = k.matchType ∧
    (archiveKeywordRow id k).bid = k.bid ∧
    (archiveKeywordRow id k).isNegative = k.isNegative ∧
    (archiveKeywordRow id k).impressions = k.impressions ∧
    (archiveKeywordRow id k).clicks = k.clicks ∧
    (archiveKeywordRow id k).conversions = k.conversions ∧
    (archiveKeywordRow id k).spend = k.spend ∧
    (archiveKeywordRow id k).sales = k.sales ∧
    (archiveKeywordRow id k).status
      = (if (k.id == id) = true then EntityStatus.ARCHIVED else k.status) := by
  unfold archiveKeywordRow
  split
  · exact ⟨rfl, rfl, rfl, rfl, rfl, rfl, rfl, rfl, rfl, rfl, rfl, rfl, rfl⟩
  · exact ⟨rfl, rfl, rfl, rfl, rfl, rfl, rfl, rfl, rfl, rfl, rfl, rfl, rfl⟩

/-- The scoped lookup still finds the row after deleteKeyword archived it. -/
theorem getKeywordById_archive (id cid : Nat) (s : Store) (existing : Keyword)
    (hfind : s.keywords.find? (keywordScopePred id cid) = some existing) :
    getKeywordById id cid { s with keywords := s.keywords.map (archiveKeywordRow id) }
      = Except.ok (archiveKeywordRow id existing) := by
  unfold getKeywordById
  have hmapfind : (s.keywords.map (archiveKeywordRow id)).find? (keywordScopePred id cid)
      = some (archiveKeywordRow id existing) := by
    rw [List.find?_map]
    have hpred : (keywordScopePred id cid ∘ archiveKeywordRow id) = keywordScopePred id cid :=
      funext fun k => keywordScopePred_archive id cid k
    rw [hpred, hfind]
    rfl
  rw [hmapfind]

/-- C5: deleteKeyword on an existing scoped keyword succeeds, flips only the
status of the rows with that id to ARCHIVED preserving every other stored
field of every row, a second delete succeeds and changes nothing, and on a
store holding no such id/campaignId pair it fails with NotFoundError. -/
theorem deleteKeyword_claim (id cid : Nat) (s : Store) (existing : Keyword)
    (hex : getKeywordById id cid s = Except.ok existing) :
    (deleteKeyword id cid s).1 = Except.ok () ∧
    ((deleteKeyword id cid s).2).campaigns = s.campaigns ∧
    ((deleteKeyword id cid s).2).adGroups = s.adGroups ∧
    ((deleteKeyword id cid s).2).nextKeywordId = s.nextKeywordId ∧
    ((deleteKeyword id cid s).2).keywords.length = s.keywords.length ∧
    (∀ i : Fin s.keywords.length,
      ∃ hi : i.val < ((deleteKeyword id cid s).2).keywords.length,
        let old := s.keywords.get i
        let upd := ((deleteKeyword id cid s).2).keywords.get ⟨i.val, hi⟩
        upd.id = old.id ∧ upd.campaignId = old.campaignId ∧
        upd.adGroupId = old.adGroupId ∧ upd.keywordText = old.keywordText ∧
        upd.matchType = old.matchType ∧ upd.bid = old.bid ∧
        upd.isNegative = old.isNegative ∧ upd.impressions = old.impressions ∧
        upd.clicks = old.clicks ∧ upd.conversions = old.conversions ∧
        upd.spend = old.spend ∧ upd.sales = old.sales ∧
        upd.status = (if (old.id == id) = true then EntityStatus.ARCHIVED else old.status)) ∧
    deleteKeyword id cid ((deleteKeyword id cid s).2)
      = (Except.ok (), (deleteKeyword id cid s).2) ∧
    (∀ t : Store, (∀ k ∈ t.keywords, ¬(k.id = id ∧ k.campaignId = cid)) →
      deleteKeyword id cid t
        = (Except.error (ServiceError.notFoundError keywordNotFoundMsg), t)) := by
  have hfind : s.keywords.find? (keywordScopePred id cid) = some existing := by
    unfold getKeywordById at hex
    rcases hf : s.keywords.find? (keywordScopePred id cid) with _ | k
    · rw [hf] at hex
      exact absurd hex (by simp)
    · rw [hf] at hex
      simp only [Except.ok.injEq] at hex
      rw [hex]
  have hdel : deleteKeyword id cid s
      = (Except.ok (), { s with keywords := s.keywords.map (archiveKeywordRow id) }) := by
    unfold deleteKeyword
    rw [hex]
  rw [hdel]
  refine ⟨rfl, rfl, rfl, rfl, by simp, ?_, ?_, ?_⟩
  · intro i
    refine ⟨by simp [i.isLt], ?_⟩
    have hget : (s.keywords.map (archiveKeywordRow id)).get
        ⟨i.val, by simp [i.isLt]⟩ = archiveKeywordRow id (s.keywords.get i) := by
      simp [List.get_eq_getElem, List.getElem_map]
    simp only [hget]
    exact archiveKeywordRow_fields id (s.keywords.get i)
  · have hget2 : getKeywordById id cid
        { s with keywords := s.keywords.map (archiveKeywordRow id) }
        = Except.ok (archiveKeywordRow id existing) :=
      getKeywordById_archive id cid s existing hfind
    unfold deleteKeyword
    rw [hget2]
    have hmm : (s.keywords.map (archiveKeywordRow id)).map (archiveKeywordRow id)
        = s.keywords.map (archiveKeywordRow id) := by
      rw [List.map_map]
      exact List.map_congr_left fun k _ => archiveKeywordRow_idem id k
    simp only [hmm]
  · intro t ht
    have hn : t.keywords.find? (keywordScopePred id cid) = none := by
      rw [List.find?_eq_none]
      intro k hk hp
      simp only [keywordScopePred, Bool.and_eq_true, beq_iff_eq] at hp
      exact ht k hk hp
    have hg : getKeywordById id cid t
        = Except.error (ServiceError.notFoundError keywordNotFoundMsg) := by
      unfold getKeywordById
      rw [hn]
    unfold deleteKeyword
    rw [hg]

/-- Witness for C5: deleting keyword 1 of campaign 1 succeeds and a second
delete of the same pair changes nothing. -/
theorem deleteKeyword_claim_witness :
    (deleteKeyword 1 1 ⟨[⟨1⟩], [], [⟨1, 1, none, "lamp", MatchType.EXACT, 1, false,
        EntityStatus.ACTIVE, 9, 8, 7, 6, 5⟩], 2⟩).1 = Except.ok () ∧
    deleteKeyword 1 1 ((deleteKeyword 1 1 ⟨[⟨1⟩], [], [⟨1, 1, none, "lamp",
        MatchType.EXACT, 1, false, EntityStatus.ACTIVE, 9, 8, 7, 6, 5⟩], 2⟩).2)
      = (Except.ok (), (deleteKeyword 1 1 ⟨[⟨1⟩], [], [⟨1, 1, none, "lamp",
          MatchType.EXACT, 1, false, EntityStatus.ACTIVE, 9, 8, 7, 6, 5⟩], 2⟩).2) :=
  ⟨(deleteKeyword_claim 1 1 ⟨[⟨1⟩], [], [⟨1, 1, none, "lamp", MatchType.EXACT, 1, false,
      EntityStatus.ACTIVE, 9, 8, 7, 6, 5⟩], 2⟩
      ⟨1, 1, none, "lamp", MatchType.EXACT, 1, false,
        EntityStatus.ACTIVE, 9, 8, 7, 6, 5⟩ (by rfl)).1,
   (deleteKeyword_claim 1 1 ⟨[⟨1⟩], [], [⟨1, 1, none, "lamp", MatchType.EXACT, 1, false,
      EntityStatus.ACTIVE, 9, 8, 7, 6, 5⟩], 2⟩
      ⟨1, 1, none, "lamp", MatchType.EXACT, 1, false,
        EntityStatus.ACTIVE, 9, 8, 7, 6, 5⟩ (by rfl)).2.2.2.2.2.2.1⟩

/-- When the scoped fetch succeeds, updateKeyword reduces to the two
validation ifs followed by the partial row update. -/
theorem updateKeyword_eq (id cid : Nat) (d : UpdateKeywordDto) (s : Store)
    (existing : Keyword)
    (hex : getKeywordById id cid s = Except.ok existing) :
    updateKeyword id cid d s =
      if (match d.bid with
          | some b => !(d.isNegative.getD existing.isNegative) && decide (b ≤ 0)
          | none => false) = true then
        (Except.error (ServiceError.validationError bidMsg), s)
      else if (match d.keywordText with
          | some t => jsTrim t == ""
          | none => false) = true then
        (Except.error (ServiceError.validationError textMsg), s)
      else
        (Except.ok (applyPatch existing d),
         { s with keywords := s.keywords.map (patchKeywordRow id d) }) := by
  unfold updateKeyword
  rw [hex]

/-- Inversion of a successful updateKeyword call: the fetch succeeded, the
result is the patched row, the store maps the row update over the table,
and a bid in the patch passed the validation against the resulting
isNegative value. -/
theorem updateKeyword_ok_state (id cid : Nat) (d : UpdateKeywordDto) (s : Store)
    (k2 : Keyword) (s2 : Store)
    (h : updateKeyword id cid d s = (Except.ok k2, s2)) :
    ∃ existing, getKeywordById id cid s = Except.ok existing ∧
      k2 = applyPatch existing d ∧
      s2 = { s with keywords := s.keywords.map (patchKeywordRow id d) } ∧
      (∀ b, d.bid = some b →
        d.isNegative.getD existing.isNegative = true ∨ 0 < b) := by
  rcases hg : getKeywordById id cid s with e | existing
  · unfold updateKeyword at h
    rw [hg] at h
    simp at h
  · rw [updateKeyword_eq id cid d s existing hg] at h
    refine ⟨existing, rfl, ?_⟩
    split at h
    · simp at h
    · rename_i hbi
      split at h
      · simp at h
      · simp only [Prod.mk.injEq, Except.ok.injEq] at h
        refine ⟨h.1.symm, h.2.symm, ?_⟩
        intro b hb
        rw [hb] at hbi
        by_cases hn : d.isNegative.getD existing.isNegative = true
        · exact Or.inl hn
        · refine Or.inr (lt_of_not_le fun hle => hbi ?_)
          have hn2 : d.isNegative.getD existing.isNegative = false :=
            Bool.eq_false_iff.mpr hn
          simp [hn2, hle]

/-- Field-by-field effect of the partial row update: identity off the
selected row, and on it only the patched fields change. -/
theorem patchKeywordRow_fields (id : Nat) (d : UpdateKeywordDto) (k : Keyword) :
    (patchKeywordRow id d k).id = k.id ∧
    (patchKeywordRow id d k).campaignId = k.campaignId ∧
    (patchKeywordRow id d k).adGroupId = k.adGroupId ∧
    (patchKeywordRow id d k).impressions = k.impressions ∧
    (patchKeywordRow id d k).clicks = k.clicks ∧
    (patchKeywordRow id d k).conversions = k.conversions ∧
    (patchKeywordRow id d k).spend = k.spend ∧
    (patchKeywordRow id d k).sales = k.sales ∧
    (d.keywordText = none → (patchKeywordRow id d k).keywordText = k.keywordText) ∧
    (d.matchType = none → (patchKeywordRow id d k).matchType = k.matchType) ∧
    (d.bid = none → (patchKeywordRow id d k).bid = k.bid) ∧
    (d.status = none → (patchKeywordRow id d k).status = k.status) ∧
    (d.isNegative = none → (patchKeywordRow id d k).isNegative = k.isNegative) := by
  unfold patchKeywordRow
  split
  · refine ⟨rfl, rfl, rfl, rfl, rfl, rfl, rfl, rfl, ?_, ?_, ?_, ?_, ?_⟩
    all_goals intro hn
    all_goals simp [applyPatch, hn]
  · exact ⟨rfl, rfl, rfl, rfl, rfl, rfl, rfl, rfl, fun _ => rfl, fun _ => rfl,
      fun _ => rfl, fun _ => rfl, fun _ => rfl⟩

/-- C6: a successful updateKeyword call changes no table except keywords,
keeps every row count, and in every row it keeps the identity, scoping and
counter fields and every field absent from the patch. -/
theorem updateKeyword_frame (id cid : Nat) (d : UpdateKeywordDto) (s : Store)
    (k2 : Keyword) (s2 : Store)
    (h : updateKeyword id cid d s = (Except.ok k2, s2)) :
    s2.campaigns = s.campaigns ∧
    s2.adGroups = s.adGroups ∧
    s2.nextKeywordId = s.nextKeywordId ∧
    s2.keywords.length = s.keywords.length ∧
    (∀ i : Fin s.keywords.length,
      ∃ hi : i.val < s2.keywords.length,
        let old := s.keywords.get i
        let upd := s2.keywords.get ⟨i.val, hi⟩
        upd.id = old.id ∧ upd.campaignId = old.campaignId ∧
        upd.adGroupId = old.adGroupId ∧
        upd.impressions = old.impressions ∧ upd.clicks = old.clicks ∧
        upd.conversions = old.conversions ∧ upd.spend = old.spend ∧
        upd.sales = old.sales ∧
        (d.keywordText = none → upd.keywordText = old.keywordText) ∧
        (d.matchType = none → upd.matchType = old.matchType) ∧
        (d.bid = none → upd.bid = old.bid) ∧
        (d.status = none → upd.status = old.status) ∧
        (d.isNegative = none → upd.isNegative = old.isNegative)) := by
  obtain ⟨existing, hg, hk2, hs2, hbidcond⟩ := updateKeyword_ok_state id cid d s k2 s2 h
  rw [hs2]
  refine ⟨rfl, rfl, rfl, by simp, ?_⟩
  intro i
  refine ⟨by simp [i.isLt], ?_⟩
  have hget : (s.keywords.map (patchKeywordRow id d)).get
      ⟨i.val, by simp [i.isLt]⟩ = patchKeywordRow id d (s.keywords.get i) := by
    simp [List.get_eq_getElem, List.getElem_map]
  simp only [hget]
  exact patchKeywordRow_fields id d (s.keywords.get i)

/-- Witness for C6: patching only the bid of keyword 1 leaves its text,
match type, status, flags and counters unchanged. -/
theorem updateKeyword_frame_witness :
    ((⟨[⟨1⟩], [], [⟨1, 1, none, "lamp", MatchType.EXACT, 5, false,
        EntityStatus.ACTIVE, 9, 8, 7, 6, 4⟩], 2⟩ : Store)).campaigns
      = ((⟨[⟨1⟩], [], [⟨1, 1, none, "lamp", MatchType.EXACT, 1, false,
        EntityStatus.ACTIVE, 9, 8, 7, 6, 4⟩], 2⟩ : Store)).campaigns ∧
    ((⟨[⟨1⟩], [], [⟨1, 1, none, "lamp", MatchType.EXACT, 5, false,
        EntityStatus.ACTIVE, 9, 8, 7, 6, 4⟩], 2⟩ : Store)).adGroups
      = ((⟨[⟨1⟩], [], [⟨1, 1, none, "lamp", MatchType.EXACT, 1, false,
        EntityStatus.ACTIVE, 9, 8, 7, 6, 4⟩], 2⟩ : Store)).adGroups ∧
    ((⟨[⟨1⟩], [], [⟨1, 1, none, "lamp", MatchType.EXACT, 5, false,
        EntityStatus.ACTIVE, 9, 8, 7, 6, 4⟩], 2⟩ : Store)).nextKeywordId
      = ((⟨[⟨1⟩], [], [⟨1, 1, none, "lamp", MatchType.EXACT, 1, false,
        EntityStatus.ACTIVE, 9, 8, 7, 6, 4⟩], 2⟩ : Store)).nextKeywordId ∧
    ((⟨[⟨1⟩], [], [⟨1, 1, none, "lamp", MatchType.EXACT, 5, false,
        EntityStatus.ACTIVE, 9, 8, 7, 6, 4⟩], 2⟩ : Store)).keywords.length
      = ((⟨[⟨1⟩], [], [⟨1, 1, none, "lamp", MatchType.EXACT, 1, false,
        EntityStatus.ACTIVE, 9, 8, 7, 6, 4⟩], 2⟩ : Store)).keywords.length ∧
    (∀ i : Fin ((⟨[⟨1⟩], [], [⟨1, 1, none, "lamp", MatchType.EXACT, 1, false,
        EntityStatus.ACTIVE, 9, 8, 7, 6, 4⟩], 2⟩ : Store)).keywords.length,
      ∃ hi : i.val < ((⟨[⟨1⟩], [], [⟨1, 1, none, "lamp", MatchType.EXACT, 5, false,
        EntityStatus.ACTIVE, 9, 8, 7, 6, 4⟩], 2⟩ : Store)).keywords.length,
        let old := ((⟨[⟨1⟩], [], [⟨1, 1, none, "lamp", MatchType.EXACT, 1, false,
          EntityStatus.ACTIVE, 9, 8, 7, 6, 4⟩], 2⟩ : Store)).keywords.get i
        let upd := ((⟨[⟨1⟩], [], [⟨1, 1, none, "lamp", MatchType.EXACT, 5, false,
          EntityStatus.ACTIVE, 9, 8, 7, 6, 4⟩], 2⟩ : Store)).keywords.get ⟨i.val, hi⟩
        upd.id = old.id ∧ upd.campaignId = old.campaignId ∧
        upd.adGroupId = old.adGroupId ∧
        upd.impressions = old.impressions ∧ upd.clicks = old.clicks ∧
        upd.conversions = old.conversions ∧ upd.spend = old.spend ∧
        upd.sales = old.sales ∧
        ((⟨none, none, some 5, none, none⟩ : UpdateKeywordDto).keywordText = none →
          upd.keywordText = old.keywordText) ∧
        ((⟨none, none, some 5, none, none⟩ : UpdateKeywordDto).matchType = none →
          upd.matchType = old.matchType) ∧
        ((⟨none, none, some 5, none, none⟩ : UpdateKeywordDto).bid = none →
          upd.bid = old.bid) ∧
        ((⟨none, none, some 5, none, none⟩ : UpdateKeywordDto).status = none →
          upd.status = old.status) ∧
        ((⟨none, none, some 5, none, none⟩ : UpdateKeywordDto).isNegative = none →
          upd.isNegative = old.isNegative)) :=
  updateKeyword_frame 1 1 ⟨none, none, some 5, none, none⟩
    ⟨[⟨1⟩], [], [⟨1, 1, none, "lamp", MatchType.EXACT, 1, false,
      EntityStatus.ACTIVE, 9, 8, 7, 6, 4⟩], 2⟩
    ⟨1, 1, none, "lamp", MatchType.EXACT, 5, false, EntityStatus.ACTIVE, 9, 8, 7, 6, 4⟩
    ⟨[⟨1⟩], [], [⟨1, 1, none, "lamp", MatchType.EXACT, 5, false,
      EntityStatus.ACTIVE, 9, 8, 7, 6, 4⟩], 2⟩
    (by rfl)

/-- C2: when the patch contains a bid, the bid is validated against the
resulting isNegative value: resulting false and bid at most 0 is the bid
ValidationError with unchanged store, resulting true accepts any bid and,
with valid text, the update succeeds. -/
theorem updateKeyword_bid_resulting (id cid : Nat) (d : UpdateKeywordDto) (s : Store)
    (existing : Keyword) (b : Rat)
    (hex : getKeywordById id cid s = Except.ok existing)
    (hbid : d.bid = some b) :
    (d.isNegative.getD existing.isNegative = false → b ≤ 0 →
      updateKeyword id cid d s
        = (Except.error (ServiceError.validationError bidMsg), s)) ∧
    (d.isNegative.getD existing.isNegative = true →
      (∀ t, d.keywordText = some t → jsTrim t ≠ "") →
      updateKeyword id cid d s =
        (Except.ok (applyPatch existing d),
         { s with keywords := s.keywords.map (patchKeywordRow id d) })) := by
  constructor
  · intro hfalse hle
    rw [updateKeyword_eq id cid d s existing hex]
    simp [hbid, hfalse, hle]
  · intro htrue htext
    have htset : (match d.keywordText with
        | some t => jsTrim t == ""
        | none => false) = false := by
      rcases ht : d.keywordText with _ | t
      · rfl
      · simp [htext t ht]
    rw [updateKeyword_eq id cid d s existing hex]
    simp [hbid, htrue, htset]

/-- Witness for C2: a zero bid on a non-negative keyword is rejected, while
the same patch with isNegative set to true is accepted even with a negative
bid. -/
theorem updateKeyword_bid_resulting_witness :
    updateKeyword 1 1 ⟨none, none, some 0, none, none⟩
        ⟨[⟨1⟩], [], [⟨1, 1, none, "lamp", MatchType.EXACT, 1, false,
          EntityStatus.ACTIVE, 0, 0, 0, 0, 0⟩], 2⟩
      = (Except.error (ServiceError.validationError bidMsg),
         ⟨[⟨1⟩], [], [⟨1, 1, none, "lamp", MatchType.EXACT, 1, false,
           EntityStatus.ACTIVE, 0, 0, 0, 0, 0⟩], 2⟩) ∧
    updateKeyword 1 1 ⟨none, none, some (-3), none, some true⟩
        ⟨[⟨1⟩], [], [⟨1, 1, none, "lamp", MatchType.EXACT, 1, false,
          EntityStatus.ACTIVE, 0, 0, 0, 0, 0⟩], 2⟩
      = (Except.ok ⟨1, 1, none, "lamp", MatchType.EXACT, -3, true,
           EntityStatus.ACTIVE, 0, 0, 0, 0, 0⟩,
         ⟨[⟨1⟩], [], [⟨1, 1, none, "lamp", MatchType.EXACT, -3, true,
           EntityStatus.ACTIVE, 0, 0, 0, 0, 0⟩], 2⟩) :=
  ⟨(updateKeyword_bid_resulting 1 1 ⟨none, none, some 0, none, none⟩
      ⟨[⟨1⟩], [], [⟨1, 1, none, "lamp", MatchType.EXACT, 1, false,
        EntityStatus.ACTIVE, 0, 0, 0, 0, 0⟩], 2⟩
      ⟨1, 1, none, "lamp", MatchType.EXACT, 1, false,
        EntityStatus.ACTIVE, 0, 0, 0, 0, 0⟩ 0 rfl rfl).1 rfl (by decide),
   (updateKeyword_bid_resulting 1 1 ⟨none, none, some (-3), none, some true⟩
      ⟨[⟨1⟩], [], [⟨1, 1, none, "lamp", MatchType.EXACT, 1, false,
        EntityStatus.ACTIVE, 0, 0, 0, 0, 0⟩], 2⟩
      ⟨1, 1, none, "lamp", MatchType.EXACT, 1, false,
        EntityStatus.ACTIVE, 0, 0, 0, 0, 0⟩ (-3) rfl rfl).2 rfl
      (fun t ht => nomatch ht)⟩

/-- C3 (amended): with a nonzero adGroupId, valid bid and text and an
existing campaign, createKeyword rejects an ad group owned by a different
campaign with the ownership ValidationError and a missing ad group with the
ad-group NotFoundError, leaving the store unchanged in both cases.  The
nonzero hypothesis is forced by the truthiness guard of the source: an
adGroupId of 0 skips the ad-group checks entirely. -/
theorem createKeyword_adGroup_scoping (data : CreateKeywordDto) (s : Store) (g : Nat)
    (hg : data.adGroupId = some g) (hgz : g ≠ 0)
    (hbid : data.isNegative.getD false = true ∨ 0 < data.bid)
    (htext : jsTrim data.keywordText ≠ "")
    (hcamp : ∃ c ∈ s.campaigns, c.id = data.campaignId) :
    (∀ ag, s.adGroups.find? (fun a => a.id == g) = some ag →
      ag.campaignId ≠ data.campaignId →
      createKeyword data s
        = (Except.error (ServiceError.validationError adGroupOwnershipMsg), s)) ∧
    (s.adGroups.find? (fun a => a.id == g) = none →
      createKeyword data s
        = (Except.error (ServiceError.notFoundError adGroupNotFoundMsg), s)) := by
  have hb : (!(data.isNegative.getD false) && decide (data.bid ≤ 0)) = false := by
    rcases hbid with hn | hp
    · simp [hn]
    · simp [not_le.mpr hp]
  obtain ⟨c0, hc0mem, hc0id⟩ := hcamp
  have hfindc : (s.campaigns.find? (fun c => c.id == data.campaignId)).isSome = true := by
    rw [List.find?_isSome]
    exact ⟨c0, hc0mem, by simp [hc0id]⟩
  obtain ⟨c1, hc1⟩ := Option.isSome_iff_exists.mp hfindc
  have hzb : (g == 0) = false := by simp [hgz]
  constructor
  · intro ag hfound hneq
    have hob : (ag.campaignId == data.campaignId) = false := by simp [hneq]
    unfold createKeyword
    rw [hb]
    simp only [Bool.false_eq_true, if_false, if_neg htext, hc1, hg, hzb, hfound, hob]
  · intro hnone
    unfold createKeyword
    rw [hb]
    simp only [Bool.false_eq_true, if_false, if_neg htext, hc1, hg, hzb, hnone]

/-- Witness for C3 (amended): ad group 1 belongs to campaign 1, creating
under campaign 2 is the ownership ValidationError; ad group 3 does not
exist, creating with it is the ad-group NotFoundError. -/
theorem createKeyword_adGroup_scoping_witness :
    createKeyword ⟨2, some 1, "lamp", MatchType.EXACT, 1, none⟩
        ⟨[⟨1⟩, ⟨2⟩], [⟨1, 1⟩], [], 1⟩
      = (Except.error (ServiceError.validationError adGroupOwnershipMsg),
         ⟨[⟨1⟩, ⟨2⟩], [⟨1, 1⟩], [], 1⟩) ∧
    createKeyword ⟨2, some 3, "lamp", MatchType.EXACT, 1, none⟩
        ⟨[⟨1⟩, ⟨2⟩], [⟨1, 1⟩], [], 1⟩
      = (Except.error (ServiceError.notFoundError adGroupNotFoundMsg),
         ⟨[⟨1⟩, ⟨2⟩], [⟨1, 1⟩], [], 1⟩) :=
  ⟨(createKeyword_adGroup_scoping ⟨2, some 1, "lamp", MatchType.EXACT, 1, none⟩
      ⟨[⟨1⟩, ⟨2⟩], [⟨1, 1⟩], [], 1⟩ 1 rfl (by decide) (Or.inr (by decide)) (by decide)
      ⟨⟨2⟩, by simp, rfl⟩).1 ⟨1, 1⟩ (by rfl) (by decide),
   (createKeyword_adGroup_scoping ⟨2, some 3, "lamp", MatchType.EXACT, 1, none⟩
      ⟨[⟨1⟩, ⟨2⟩], [⟨1, 1⟩], [], 1⟩ 3 rfl (by decide) (Or.inr (by decide)) (by decide)
      ⟨⟨2⟩, by simp, rfl⟩).2 (by rfl)⟩

/-- Counterexample for C3 as stated: with adGroupId 0 the referenced ad
group does not exist, yet the call succeeds and inserts the row instead of
failing with NotFoundError, because the truthiness guard of the source
treats the numeric value 0 as absent. -/
theorem createKeyword_adGroup_zero_counterexample :
    ((⟨[⟨1⟩], [], [], 1⟩ : Store)).adGroups.find? (fun a => a.id == 0) = none ∧
    (createKeyword ⟨1, some 0, "lamp", MatchType.EXACT, 1, none⟩
        ⟨[⟨1⟩], [], [], 1⟩).1
      = Except.ok ⟨1, 1, some 0, "lamp", MatchType.EXACT, 1, false,
          EntityStatus.ACTIVE, 0, 0, 0, 0, 0⟩ ∧
    ((createKeyword ⟨1, some 0, "lamp", MatchType.EXACT, 1, none⟩
        ⟨[⟨1⟩], [], [], 1⟩).2).keywords
      = [⟨1, 1, some 0, "lamp", MatchType.EXACT, 1, false,
          EntityStatus.ACTIVE, 0, 0, 0, 0, 0⟩] :=
  ⟨rfl, rfl, rfl⟩

/-- C4 (amended): a keyword accepted by createKeyword is negative or has a
positive bid; updateKeyword guarantees the same only when the patch
contains a bid, since the bid check is skipped for an absent bid.  A
negative bid can be persisted when isNegative is true. -/
theorem keyword_bid_positivity_amended (data : CreateKeywordDto) (s : Store)
    (k : Keyword) (s2 : Store) (id cid : Nat) (d : UpdateKeywordDto) (t : Store)
    (k2 : Keyword) (t2 : Store) :
    (createKeyword data s = (Except.ok k, s2) → k.isNegative = true ∨ 0 < k.bid) ∧
    (updateKeyword id cid d t = (Except.ok k2, t2) →
      k2.isNegative = true ∨ d.bid = none ∨ 0 < k2.bid) := by
  constructor
  · intro h
    obtain ⟨hk, _⟩ := createKeyword_ok_state data s k s2 h
    rcases createKeyword_ok_bid data s k s2 h with hn | hp
    · left
      rw [hk]
      exact hn
    · right
      rw [hk]
      exact hp
  · intro h
    obtain ⟨existing, hg, hk2, ht2, hbidcond⟩ := updateKeyword_ok_state id cid d t k2 t2 h
    rcases hb : d.bid with _ | b
    · exact Or.inr (Or.inl rfl)
    · rcases hbidcond b hb with hn | hp
      · left
        rw [hk2]
        exact hn
      · refine Or.inr (Or.inr ?_)
        rw [hk2]
        have hbv : (applyPatch existing d).bid = b := by simp [applyPatch, hb]
        rw [hbv]
        exact hp

/-- Witness for C4 (amended): the bid rule applied to a concrete successful
creation. -/
theorem keyword_bid_positivity_amended_witness :
    (⟨1, 1, none, "lamp", MatchType.EXACT, 2, false,
        EntityStatus.ACTIVE, 0, 0, 0, 0, 0⟩ : Keyword).isNegative = true ∨
    0 < (⟨1, 1, none, "lamp", MatchType.EXACT, 2, false,
        EntityStatus.ACTIVE, 0, 0, 0, 0, 0⟩ : Keyword).bid :=
  (keyword_bid_positivity_amended ⟨1, none, "lamp", MatchType.EXACT, 2, none⟩
    ⟨[⟨1⟩], [], [], 1⟩
    ⟨1, 1, none, "lamp", MatchType.EXACT, 2, false,
      EntityStatus.ACTIVE, 0, 0, 0, 0, 0⟩
    ⟨[⟨1⟩], [], [⟨1, 1, none, "lamp", MatchType.EXACT, 2, false,
      EntityStatus.ACTIVE, 0, 0, 0, 0, 0⟩], 2⟩
    0 0 ⟨none, none, none, none, none⟩ ⟨[], [], [], 1⟩
    ⟨1, 1, none, "lamp", MatchType.EXACT, 2, false,
      EntityStatus.ACTIVE, 0, 0, 0, 0, 0⟩ ⟨[], [], [], 1⟩).1 (by rfl)

/-- Counterexample for C4 as stated: createKeyword accepts and persists a
keyword with bid -5 when isNegative is true, so a stored bid can be
negative. -/
theorem keyword_bid_negative_counterexample :
    (createKeyword ⟨1, none, "lamp", MatchType.EXACT, -5, some true⟩
        ⟨[⟨1⟩], [], [], 1⟩).1
      = Except.ok ⟨1, 1, none, "lamp", MatchType.EXACT, -5, true,
          EntityStatus.ACTIVE, 0, 0, 0, 0, 0⟩ ∧
    ((createKeyword ⟨1, none, "lamp", MatchType.EXACT, -5, some true⟩
        ⟨[⟨1⟩], [], [], 1⟩).2).keywords
      = [⟨1, 1, none, "lamp", MatchType.EXACT, -5, true,
          EntityStatus.ACTIVE, 0, 0, 0, 0, 0⟩] ∧
    ((-5 : Rat) < 0) :=
  ⟨rfl, rfl, by decide⟩

/-- Inversion of a successful scoped fetch down to the underlying search. -/
theorem getKeywordById_ok_find (id cid : Nat) (s : Store) (k : Keyword)
    (h : getKeywordById id cid s = Except.ok k) :
    s.keywords.find? (keywordScopePred id cid) = some k := by
  unfold getKeywordById at h
  rcases hf : s.keywords.find? (keywordScopePred id cid) with _ | k2
  · rw [hf] at h
    simp at h
  · rw [hf] at h
    simp only [Except.ok.injEq] at h
    rw [h]

/-- C9: bulkCreateKeywords runs one createKeyword per entry with no
rollback: a fully successful run appends exactly the created keywords, one
per entry, and a failing run decomposes into a successful prefix whose
created keywords remain in the final store, followed by the failing entry
which left the store as the prefix produced it. -/
theorem bulkCreateKeywords_claim (entries : List CreateKeywordDto) (s : Store) :
    (∀ ks s2, bulkCreateKeywords entries s = (Except.ok ks, s2) →
      s2.keywords = s.keywords ++ ks ∧ ks.length = entries.length) ∧
    (∀ e s2, bulkCreateKeywords entries s = (Except.error e, s2) →
      ∃ pre dEntry post ks s1,
        entries = pre ++ dEntry :: post ∧
        bulkCreateKeywords pre s = (Except.ok ks, s1) ∧
        createKeyword dEntry s1 = (Except.error e, s1) ∧
        s2 = s1 ∧
        s1.keywords = s.keywords ++ ks) := by
  induction entries generalizing s with
  | nil =>
    constructor
    · intro ks s2 h
      simp only [bulkCreateKeywords, Prod.mk.injEq, Except.ok.injEq] at h
      obtain ⟨h1, h2⟩ := h
      rw [← h1, ← h2]
      simp
    · intro e s2 h
      simp [bulkCreateKeywords] at h
  | cons d rest ih =>
    constructor
    · intro ks s2 h
      rcases hc : createKeyword d s with ⟨r1, s1⟩
      cases r1 with
      | error e1 =>
        simp only [bulkCreateKeywords, hc] at h
        simp at h
      | ok k =>
        simp only [bulkCreateKeywords, hc] at h
        rcases hb : bulkCreateKeywords rest s1 with ⟨r2, s3⟩
        cases r2 with
        | error e2 =>
          rw [hb] at h
          simp at h
        | ok ks2 =>
          rw [hb] at h
          simp only [Prod.mk.injEq, Except.ok.injEq] at h
          obtain ⟨hks, hs⟩ := h
          have hone := createKeyword_ok_state d s k s1 hc
          have hrest := (ih s1).1 ks2 s3 hb
          constructor
          · rw [← hs, ← hks, hrest.1, hone.2, hone.1]
            simp
          · rw [← hks]
            simp [hrest.2]
    · intro e s2 h
      rcases hc : createKeyword d s with ⟨r1, s1⟩
      cases r1 with
      | error e1 =>
        simp only [bulkCreateKeywords, hc] at h
        simp only [Prod.mk.injEq, Except.error.injEq] at h
        obtain ⟨he, hs⟩ := h
        have hst := createKeyword_error_state d s e1 s1 hc
        refine ⟨[], d, rest, [], s, rfl, rfl, ?_, ?_, by simp⟩
        · rw [hc, he, hst]
        · rw [← hs, hst]
      | ok k =>
        simp only [bulkCreateKeywords, hc] at h
        rcases hb : bulkCreateKeywords rest s1 with ⟨r2, s3⟩
        cases r2 with
        | ok ks2 =>
          rw [hb] at h
          simp at h
        | error e2 =>
          rw [hb] at h
          simp only [Prod.mk.injEq, Except.error.injEq] at h
          obtain ⟨he, hs⟩ := h
          have hone := createKeyword_ok_state d s k s1 hc
          obtain ⟨pre, dE, post, ks, s4, hsplit, hpre, hfail, hs4, hkeys⟩ :=
            (ih s1).2 e2 s3 hb
          refine ⟨d :: pre, dE, post, k :: ks, s4, ?_, ?_, ?_, ?_, ?_⟩
          · rw [hsplit]
            rfl
          · simp only [bulkCreateKeywords, hc, hpre]
          · rw [← he]
            exact hfail
          · rw [← hs, hs4]
          · rw [hkeys, hone.2, hone.1]
            simp

/-- Witness for C9: a bulk run with one valid entry appends exactly its one
created keyword. -/
theorem bulkCreateKeywords_claim_witness :
    ((⟨[⟨1⟩], [], [newKeyword ⟨1, none, "lamp", MatchType.EXACT, 1, none⟩
        ⟨[⟨1⟩], [], [], 1⟩], 2⟩ : Store)).keywords
      = ((⟨[⟨1⟩], [], [], 1⟩ : Store)).keywords
        ++ [newKeyword ⟨1, none, "lamp", MatchType.EXACT, 1, none⟩ ⟨[⟨1⟩], [], [], 1⟩] ∧
    [newKeyword ⟨1, none, "lamp", MatchType.EXACT, 1, none⟩ ⟨[⟨1⟩], [], [], 1⟩].length
      = [(⟨1, none, "lamp", MatchType.EXACT, 1, none⟩ : CreateKeywordDto)].length :=
  (bulkCreateKeywords_claim [⟨1, none, "lamp", MatchType.EXACT, 1, none⟩]
    ⟨[⟨1⟩], [], [], 1⟩).1
    [newKeyword ⟨1, none, "lamp", MatchType.EXACT, 1, none⟩ ⟨[⟨1⟩], [], [], 1⟩]
    ⟨[⟨1⟩], [], [newKeyword ⟨1, none, "lamp", MatchType.EXACT, 1, none⟩
      ⟨[⟨1⟩], [], [], 1⟩], 2⟩ (by rfl)

/-- C10: the fulfilled client-side delete removes every keyword with the
payload id from the slice and keeps all the others, while the server-side
delete only archives: after a successful deleteKeyword the row is still
returned, with status ARCHIVED, by an unfiltered campaign listing. -/
theorem clientDelete_vs_serverArchive (l : List Keyword) (id cid : Nat) (s : Store)
    (existing : Keyword)
    (hex : getKeywordById id cid s = Except.ok existing) :
    (∀ k ∈ deleteKeywordFulfilled l id, k.id ≠ id) ∧
    (∀ k ∈ l, k.id ≠ id → k ∈ deleteKeywordFulfilled l id) ∧
    (deleteKeyword id cid s).1 = Except.ok () ∧
    { existing with status := EntityStatus.ARCHIVED }
      ∈ getCampaignKeywords cid ⟨none, none, none, none⟩ ((deleteKeyword id cid s).2) := by
  have hfind := getKeywordById_ok_find id cid s existing hex
  have hpred := List.find?_some hfind
  simp only [keywordScopePred, Bool.and_eq_true, beq_iff_eq] at hpred
  have hdel : deleteKeyword id cid s
      = (Except.ok (), { s with keywords := s.keywords.map (archiveKeywordRow id) }) := by
    unfold deleteKeyword
    rw [hex]
  refine ⟨?_, ?_, ?_, ?_⟩
  · intro k hk
    unfold deleteKeywordFulfilled at hk
    have hm := List.mem_filter.mp hk
    simpa using hm.2
  · intro k hk hne
    unfold deleteKeywordFulfilled
    rw [List.mem_filter]
    exact ⟨hk, by simp [hne]⟩
  · rw [hdel]
  · rw [hdel]
    have hmem : existing ∈ s.keywords := List.mem_of_find?_eq_some hfind
    have harch : archiveKeywordRow id existing
        = { existing with status := EntityStatus.ARCHIVED } := by
      unfold archiveKeywordRow
      rw [if_pos (by simp [hpred.1])]
    unfold getCampaignKeywords
    rw [List.mem_filter]
    constructor
    · rw [← harch]
      exact List.mem_map.mpr ⟨existing, hmem, rfl⟩
    · simp [hpred.2]

/-- Witness for C10: deleting id 1 client-side keeps keyword 2, and after the
server-side delete the archived keyword 1 still appears in the unfiltered
campaign listing. -/
theorem clientDelete_vs_serverArchive_witness :
    (⟨2, 1, none, "sofa", MatchType.BROAD, 2, false,
        EntityStatus.ACTIVE, 0, 0, 0, 0, 0⟩ : Keyword).id ≠ 1 ∧
    ({ (⟨1, 1, none, "lamp", MatchType.EXACT, 1, false,
        EntityStatus.ACTIVE, 0, 0, 0, 0, 0⟩ : Keyword) with
        status := EntityStatus.ARCHIVED }
      ∈ getCampaignKeywords 1 ⟨none, none, none, none⟩
          ((deleteKeyword 1 1 ⟨[⟨1⟩], [],
            [⟨1, 1, none, "lamp", MatchType.EXACT, 1, false,
              EntityStatus.ACTIVE, 0, 0, 0, 0, 0⟩], 2⟩).2)) :=
  ⟨(clientDelete_vs_serverArchive
      [⟨1, 1, none, "lamp", MatchType.EXACT, 1, false,
        EntityStatus.ACTIVE, 0, 0, 0, 0, 0⟩,
       ⟨2, 1, none, "sofa", MatchType.BROAD, 2, false,
        EntityStatus.ACTIVE, 0, 0, 0, 0, 0⟩] 1 1
      ⟨[⟨1⟩], [], [⟨1, 1, none, "lamp", MatchType.EXACT, 1, false,
        EntityStatus.ACTIVE, 0, 0, 0, 0, 0⟩], 2⟩
      ⟨1, 1, none, "lamp", MatchType.EXACT, 1, false,
        EntityStatus.ACTIVE, 0, 0, 0, 0, 0⟩ (by rfl)).1
      ⟨2, 1, none, "sofa", MatchType.BROAD, 2, false,
        EntityStatus.ACTIVE, 0, 0, 0, 0, 0⟩ (by decide),
   (clientDelete_vs_serverArchive
      [⟨1, 1, none, "lamp", MatchType.EXACT, 1, false,
        EntityStatus.ACTIVE, 0, 0, 0, 0, 0⟩,
       ⟨2, 1, none, "sofa", MatchType.BROAD, 2, false,
        EntityStatus.ACTIVE, 0, 0, 0, 0, 0⟩] 1 1
      ⟨[⟨1⟩], [], [⟨1, 1, none, "lamp", MatchType.EXACT, 1, false,
        EntityStatus.ACTIVE, 0, 0, 0, 0, 0⟩], 2⟩
      ⟨1, 1, none, "lamp", MatchType.EXACT, 1, false,
        EntityStatus.ACTIVE, 0, 0, 0, 0, 0⟩ (by rfl)).2.2.2⟩

end Ppcsim
